import Mathlib

/-!
Shallow embedding of the e-commerce backend (product catalog, order ledger,
reporting queries) from `backend/routes/orders.js`, `backend/routes/reports.js`
and the products router, over an explicit relational state.

Monetary values are modelled as rationals (`ℚ`); `parseFloat(x.toFixed(2))`
becomes rounding to 2 decimal places on `ℚ`.  Request-body values are
modelled by `ReqVal`, capturing JavaScript truthiness and numeric coercion
(`!x`, `isNaN(x)`, `x <= 0`) for the values the handlers inspect.
-/

namespace ECom

/-- A JSON request-body field as the JS handlers see it: absent (`undefined`),
a number, or a string together with its `ToNumber` coercion (`none` when the
coercion yields `NaN`). -/
inductive ReqVal where
  | missing : ReqVal
  | num (q : ℚ) : ReqVal
  | str (s : String) (coerce : Option ℚ) : ReqVal
deriving DecidableEq

/-- JS falsiness of a request value: `undefined`, the number `0`, and the
empty string are falsy (`!x` is `true`). -/
def jsFalsy : ReqVal → Bool
  | .missing => true
  | .num q => q == 0
  | .str s _ => s == ""

/-- JS `ToNumber` coercion; `none` stands for `NaN`. -/
def toNumber : ReqVal → Option ℚ
  | .missing => none
  | .num q => some q
  | .str _ c => c

/-- JS `isNaN(x)` after coercion. -/
def jsIsNaN (v : ReqVal) : Bool := (toNumber v).isNone

/-- JS `x <= 0` on a value whose coercion is a number (false when `NaN`). -/
def jsNonPos (v : ReqVal) : Bool :=
  match toNumber v with
  | none => false
  | some q => decide (q ≤ 0)

/-- The coerced numeric value, defaulting to 0 (used only after the handler
has already checked `!isNaN(v)`). -/
def numVal (v : ReqVal) : ℚ := (toNumber v).getD 0

/-- The string content stored for a name field (handlers only reach this
after `!name` has ruled out `undefined` and the empty string). -/
def strVal : ReqVal → String
  | .missing => ""
  | .num q => toString q
  | .str s _ => s

/-- `parseFloat(x.toFixed(2))`: round to 2 decimal places. -/
def round2 (q : ℚ) : ℚ := (round (q * 100) : ℤ) / 100

/-- A row of the `Products` table. -/
structure Product where
  id : Nat
  name : String
  price : ℚ
  created_at : Nat
deriving DecidableEq

/-- A row of the `Orders` table. -/
structure Order where
  order_id : Nat
  product_id : Nat
  quantity : ℚ
  total_price : ℚ
  order_date : Nat
deriving DecidableEq

/-- The SQLite database: both tables plus the AUTOINCREMENT counters. -/
structure DB where
  products : List Product
  orders : List Order
  nextProductId : Nat
  nextOrderId : Nat
deriving DecidableEq

/-- An HTTP response: success with a status and payload, or an error with a
status and message. -/
inductive Resp (α : Type) where
  | ok (status : Nat) (val : α) : Resp α
  | err (status : Nat) (message : String) : Resp α
deriving DecidableEq

/-- `SELECT * FROM Products WHERE id = ?` followed by `db.get` (first row). -/
def findProduct (db : DB) (pid : Nat) : Option Product :=
  db.products.find? (fun p => p.id == pid)

/-- The orders of one product (`LEFT JOIN Orders o ON p.id = o.product_id`,
restricted to one product group). -/
def ordersOf (db : DB) (pid : Nat) : List Order :=
  db.orders.filter (fun o => o.product_id == pid)

/-- `SUM(o.quantity)` over one product group (0 when the group is empty,
matching `COALESCE`; the bare SQL `SUM` of an empty group is `NULL`, which
the call sites treat the same way as 0). -/
def totalQty (db : DB) (pid : Nat) : ℚ :=
  ((ordersOf db pid).map (fun o => o.quantity)).sum

/-- `SUM(o.total_price)` over one product group, with the same 0-for-empty
convention. -/
def revenueOf (db : DB) (pid : Nat) : ℚ :=
  ((ordersOf db pid).map (fun o => o.total_price)).sum

/-- `Orders o JOIN Products p ON o.product_id = p.id`: each order paired
with its product, dropped when the product no longer exists. -/
def ordersJoined (db : DB) : List (Order × Product) :=
  db.orders.filterMap (fun o => (findProduct db o.product_id).map (fun p => (o, p)))

/-- The join filtered by `WHERE o.order_id = ?`, taken at the first row
(`db.get`). -/
def getOrderJoined (db : DB) (oid : Nat) : Option (Order × Product) :=
  (ordersJoined db).find? (fun op => op.1.order_id == oid)

/-! ## Products router -/

/-- Payload of a successful product create/update: the handler echoes the
input `name` and `parseFloat(price)`, it does not re-read storage. -/
structure ProductData where
  id : Nat
  name : String
  price : ℚ
deriving DecidableEq

/-- `POST /products`: validate (`!name || !price`, then
`isNaN(price) || price <= 0`), then `INSERT INTO Products` (with
`created_at DEFAULT CURRENT_TIMESTAMP`). -/
def createProduct (db : DB) (now : Nat) (name price : ReqVal) :
    Resp ProductData × DB :=
  if jsFalsy name || jsFalsy price then
    (.err 400 "Name and price are required", db)
  else if jsIsNaN price || jsNonPos price then
    (.err 400 "Price must be a positive number", db)
  else
    let row : Product :=
      { id := db.nextProductId, name := strVal name, price := numVal price,
        created_at := now }
    (.ok 201 { id := db.nextProductId, name := strVal name, price := numVal price },
     { db with products := db.products ++ [row], nextProductId := db.nextProductId + 1 })

/-- `PUT /products/:id`: same validation as create, then
`UPDATE Products SET name = ?, price = ? WHERE id = ?`, 404 when
`this.changes === 0`. -/
def updateProduct (db : DB) (id : Nat) (name price : ReqVal) :
    Resp ProductData × DB :=
  if jsFalsy name || jsFalsy price then
    (.err 400 "Name and price are required", db)
  else if jsIsNaN price || jsNonPos price then
    (.err 400 "Price must be a positive number", db)
  else if db.products.any (fun p => p.id == id) then
    (.ok 200 { id := id, name := strVal name, price := numVal price },
     { db with products := db.products.map (fun p =>
        if p.id == id then { p with name := strVal name, price := numVal price } else p) })
  else
    (.err 404 "Product not found", db)

/-! ## Orders router -/

/-- Payload of a successful `POST /orders`: `product_id` and `quantity` echo
the raw body values, `total_price` is `parseFloat(total.toFixed(2))`. -/
structure CreateOrderData where
  order_id : Nat
  product_id : ReqVal
  product_name : String
  quantity : ReqVal
  total_price : ℚ
  order_date : Nat
deriving DecidableEq

/-- The product lookup of `POST /orders`: `WHERE id = ?` with the raw body
value as parameter, matching numerically. -/
def findProductV (db : DB) (v : ReqVal) : Option Product :=
  match toNumber v with
  | none => none
  | some q => db.products.find? (fun p => (p.id : ℚ) == q)

/-- `POST /orders`: validate presence (`!product_id || !quantity`), then
positivity (`isNaN(quantity) || quantity <= 0`), look the product up,
compute `total_price = product.price * quantity`, insert the order storing
the full-precision total, and respond with the rounded total. -/
def createOrder (db : DB) (now : Nat) (product_id quantity : ReqVal) :
    Resp CreateOrderData × DB :=
  if jsFalsy product_id || jsFalsy quantity then
    (.err 400 "Product ID and quantity are required", db)
  else if jsIsNaN quantity || jsNonPos quantity then
    (.err 400 "Quantity must be greater than 0", db)
  else
    match findProductV db product_id with
    | none => (.err 404 "Product not found", db)
    | some p =>
      let total : ℚ := p.price * numVal quantity
      let row : Order :=
        { order_id := db.nextOrderId, product_id := p.id,
          quantity := numVal quantity, total_price := total, order_date := now }
      (.ok 201
        { order_id := db.nextOrderId, product_id := product_id,
          product_name := p.name, quantity := quantity,
          total_price := round2 total, order_date := now },
       { db with orders := db.orders ++ [row], nextOrderId := db.nextOrderId + 1 })

/-- Row shape of `GET /orders` (join with the product's current name). -/
structure OrderListRow where
  order_id : Nat
  product_id : Nat
  product_name : String
  quantity : ℚ
  total_price : ℚ
  order_date : Nat
deriving DecidableEq

/-- One row of the `GET /orders` join. -/
def mkListRow (o : Order) (p : Product) : OrderListRow :=
  { order_id := o.order_id, product_id := o.product_id, product_name := p.name,
    quantity := o.quantity, total_price := o.total_price, order_date := o.order_date }

/-- Non-increasing comparison on `order_id` (`ORDER BY o.order_id DESC`). -/
def rowGe (a b : OrderListRow) : Prop := b.order_id ≤ a.order_id

instance : DecidableRel rowGe := fun a b =>
  inferInstanceAs (Decidable (b.order_id ≤ a.order_id))

instance : IsTotal OrderListRow rowGe := ⟨fun a b => le_total b.order_id a.order_id⟩

instance : IsTrans OrderListRow rowGe :=
  ⟨fun _ _ _ hab hbc => le_trans hbc hab⟩

/-- `GET /orders`: inner join with Products, `ORDER BY o.order_id DESC`. -/
def listOrders (db : DB) : List OrderListRow :=
  ((ordersJoined db).map (fun op => mkListRow op.1 op.2)).insertionSort rowGe

/-- Row shape of `GET /orders/:id` (adds the unit price). -/
structure OrderDetail where
  order_id : Nat
  product_id : Nat
  product_name : String
  unit_price : ℚ
  quantity : ℚ
  total_price : ℚ
  order_date : Nat
deriving DecidableEq

/-- `GET /orders/:id`: the join filtered by order id; 404 `Order not found`
when no joined row exists. -/
def getOrder (db : DB) (oid : Nat) : Resp OrderDetail :=
  match getOrderJoined db oid with
  | none => .err 404 "Order not found"
  | some (o, p) =>
      .ok 200
        { order_id := o.order_id, product_id := o.product_id,
          product_name := p.name, unit_price := p.price,
          quantity := o.quantity, total_price := o.total_price,
          order_date := o.order_date }

/-- Payload of a successful `PUT /orders/:id`; `total_price` is rounded in
the response (`parseFloat(new_total_price.toFixed(2))`). -/
structure UpdateOrderData where
  order_id : Nat
  product_id : Nat
  quantity : ℚ
  total_price : ℚ
deriving DecidableEq

/-- `PUT /orders/:id`: validate `quantity`, look the order up joined with its
product's current price (404 `Order not found` when the join is empty, also
when the order row exists but its product was deleted), recompute
`total_price = p.price * quantity`, and
`UPDATE Orders SET quantity = ?, total_price = ? WHERE order_id = ?`,
storing the full-precision total. -/
def updateOrder (db : DB) (oid : Nat) (quantity : ReqVal) :
    Resp UpdateOrderData × DB :=
  if jsFalsy quantity then
    (.err 400 "Quantity is required", db)
  else if jsIsNaN quantity || jsNonPos quantity then
    (.err 400 "Quantity must be greater than 0", db)
  else
    match getOrderJoined db oid with
    | none => (.err 404 "Order not found", db)
    | some (o, p) =>
      let ntp : ℚ := p.price * numVal quantity
      (.ok 200
        { order_id := oid, product_id := o.product_id,
          quantity := numVal quantity, total_price := round2 ntp },
       { db with orders := db.orders.map (fun r =>
          if r.order_id == oid then { r with quantity := numVal quantity, total_price := ntp }
          else r) })

/-! ## Reports router -/

/-- Row shape of `GET /report/top-sellers` after the response mapping
(`price` and `total_revenue` pass through `parseFloat(x.toFixed(2))`). -/
structure TopSellerRow where
  id : Nat
  name : String
  price : ℚ
  total_quantity_sold : ℚ
  number_of_orders : Nat
  total_revenue : ℚ
deriving DecidableEq

/-- One group of the top-sellers aggregation
(`LEFT JOIN` + `GROUP BY p.id, p.name, p.price`), already mapped to the
response shape. -/
def mkTopSellerRow (db : DB) (p : Product) : TopSellerRow :=
  { id := p.id, name := p.name, price := round2 p.price,
    total_quantity_sold := totalQty db p.id,
    number_of_orders := (ordersOf db p.id).length,
    total_revenue := round2 (revenueOf db p.id) }

/-- Non-increasing comparison on `total_quantity_sold`
(`ORDER BY total_quantity_sold DESC`). -/
def tsGe (a b : TopSellerRow) : Prop := b.total_quantity_sold ≤ a.total_quantity_sold

instance : DecidableRel tsGe := fun a b =>
  inferInstanceAs (Decidable (b.total_quantity_sold ≤ a.total_quantity_sold))

instance : IsTotal TopSellerRow tsGe :=
  ⟨fun a b => le_total b.total_quantity_sold a.total_quantity_sold⟩

instance : IsTrans TopSellerRow tsGe :=
  ⟨fun _ _ _ hab hbc => le_trans hbc hab⟩

/-- `GET /report/top-sellers`: group per product, keep the groups with
`HAVING total_quantity_sold > 0` (a product with no orders has a `NULL`
sum, which the comparison also rejects), sort descending, `LIMIT 5`. -/
def topSellers (db : DB) : List TopSellerRow :=
  (((db.products.map (mkTopSellerRow db)).filter
      (fun r => 0 < r.total_quantity_sold)).insertionSort tsGe).take 5

/-- Payload of `GET /report/sales-summary` after the handler's `|| 0` and
ternary defaults. -/
structure SalesSummaryData where
  total_orders : Nat
  total_items_sold : ℚ
  total_revenue : ℚ
  average_order_value : ℚ
  first_order_date : Option Nat
  last_order_date : Option Nat
deriving DecidableEq

/-- A SQL aggregate over a column: `NULL` on an empty table. -/
def sqlSum (l : List ℚ) : Option ℚ :=
  match l with
  | [] => none
  | _ => some l.sum

/-- SQL `AVG` over a column: `NULL` on an empty table. -/
def sqlAvg (l : List ℚ) : Option ℚ :=
  match l with
  | [] => none
  | _ => some (l.sum / l.length)

/-- `row.x || 0`: a `NULL` aggregate becomes 0 (and the number 0 stays 0). -/
def jsOrZero : Option ℚ → ℚ
  | none => 0
  | some q => q

/-- `row.x ? parseFloat(row.x.toFixed(2)) : 0`: `NULL` and 0 give 0, any
other value is rounded to 2 decimals. -/
def jsMoney : Option ℚ → ℚ
  | none => 0
  | some q => if q == 0 then 0 else round2 q

/-- `GET /report/sales-summary`: the six aggregates over `Orders`, mapped
through the handler's defaults. -/
def salesSummary (db : DB) : SalesSummaryData :=
  { total_orders := ((db.orders.map (fun o => o.order_id)).dedup).length,
    total_items_sold := jsOrZero (sqlSum (db.orders.map (fun o => o.quantity))),
    total_revenue := jsMoney (sqlSum (db.orders.map (fun o => o.total_price))),
    average_order_value := jsMoney (sqlAvg (db.orders.map (fun o => o.total_price))),
    first_order_date := (db.orders.map (fun o => o.order_date)).min?,
    last_order_date := (db.orders.map (fun o => o.order_date)).max? }

/-- Row shape of `GET /report/product-performance` after the response
mapping. -/
structure PerfRow where
  id : Nat
  name : String
  price : ℚ
  total_sold : ℚ
  order_count : Nat
  revenue : ℚ
deriving DecidableEq

/-- One group of the product-performance aggregation (`COALESCE(..., 0)`
yields 0 for a product with no orders), mapped to the response shape. -/
def mkPerfRow (db : DB) (p : Product) : PerfRow :=
  { id := p.id, name := p.name, price := round2 p.price,
    total_sold := totalQty db p.id,
    order_count := (ordersOf db p.id).length,
    revenue := round2 (revenueOf db p.id) }

/-- Non-increasing comparison on `total_sold` (`ORDER BY total_sold DESC`). -/
def perfGe (a b : PerfRow) : Prop := b.total_sold ≤ a.total_sold

instance : DecidableRel perfGe := fun a b =>
  inferInstanceAs (Decidable (b.total_sold ≤ a.total_sold))

instance : IsTotal PerfRow perfGe := ⟨fun a b => le_total b.total_sold a.total_sold⟩

instance : IsTrans PerfRow perfGe := ⟨fun _ _ _ hab hbc => le_trans hbc hab⟩

/-- `GET /report/product-performance`: one group per product, no filter,
no limit, sorted by `total_sold` descending. -/
def productPerformance (db : DB) : List PerfRow :=
  (db.products.map (mkPerfRow db)).insertionSort perfGe

/-! ## Concrete states used by counterexamples and witnesses -/

/-- A catalog with one product priced 10 and an empty ledger. -/
def dbWidget : DB :=
  { products := [{ id := 1, name := "Widget", price := 10, created_at := 0 }],
    orders := [], nextProductId := 2, nextOrderId := 1 }

/-- A catalog with one product whose price has three decimal places. -/
def dbThirds : DB :=
  { products := [{ id := 1, name := "Gadget", price := 333/1000, created_at := 0 }],
    orders := [], nextProductId := 2, nextOrderId := 1 }

/-- The `total_price` field of a successful create-order response. -/
def respTotal : Resp CreateOrderData → Option ℚ
  | .ok _ d => some d.total_price
  | .err _ _ => none

/-- One product and one order of quantity 2 on it. -/
def dbOrder1 : DB :=
  { products := [{ id := 1, name := "Widget", price := 10, created_at := 0 }],
    orders := [{ order_id := 1, product_id := 1, quantity := 2,
                 total_price := 20, order_date := 0 }],
    nextProductId := 2, nextOrderId := 2 }

/-- The invalid `createProduct` inputs: empty/missing name, or a price that
is missing, non-numeric, or ≤ 0. -/
def badCreateInput (name price : ReqVal) : Prop :=
  jsFalsy name = true ∨ price = .missing ∨ jsIsNaN price = true ∨
    ∃ q : ℚ, toNumber price = some q ∧ q ≤ 0

/-- An order whose product is no longer in the catalog. -/
def dbDangling : DB :=
  { products := [],
    orders := [{ order_id := 1, product_id := 1, quantity := 2,
                 total_price := 20, order_date := 5 }],
    nextProductId := 1, nextOrderId := 2 }

/-! ## Evaluation lemmas for request values -/

@[simp] theorem jsFalsy_num (q : ℚ) : jsFalsy (.num q) = (q == 0) := rfl

@[simp] theorem jsFalsy_str (s : String) (c : Option ℚ) :
    jsFalsy (.str s c) = (s == "") := rfl

@[simp] theorem jsFalsy_missing : jsFalsy .missing = true := rfl

@[simp] theorem toNumber_num (q : ℚ) : toNumber (.num q) = some q := rfl

@[simp] theorem toNumber_str (s : String) (c : Option ℚ) :
    toNumber (.str s c) = c := rfl

@[simp] theorem jsIsNaN_num (q : ℚ) : jsIsNaN (.num q) = false := rfl

@[simp] theorem jsNonPos_num (q : ℚ) : jsNonPos (.num q) = decide (q ≤ 0) := rfl

@[simp] theorem numVal_num (q : ℚ) : numVal (.num q) = q := rfl

/-! ## Claims -/

/-- Claim C5: on an empty Order table, `salesSummary` succeeds and reports
`total_orders = 0`, `total_items_sold = 0`, `total_revenue = 0` and
`average_order_value = 0` as numeric zeros, while `first_order_date` and
`last_order_date` are null. -/
theorem salesSummary_empty (ps : List Product) (np no : Nat) :
    salesSummary { products := ps, orders := [], nextProductId := np, nextOrderId := no } =
      { total_orders := 0, total_items_sold := 0, total_revenue := 0,
        average_order_value := 0, first_order_date := none, last_order_date := none } :=
  rfl

/-- Claim C3, counterexample: with `product_id` present and the numeric
quantity 0 (which is not greater than 0), `createOrder` reports
"Product ID and quantity are required", not "Quantity must be greater
than 0", because the number 0 is falsy in the presence check. -/
theorem createOrder_qty_zero_message :
    (createOrder dbWidget 0 (.num 1) (.num 0)).1 =
      .err 400 "Product ID and quantity are required" ∧
    "Product ID and quantity are required" ≠ "Quantity must be greater than 0" := by
  exact ⟨rfl, by decide⟩

/-- Claim C3, amended: for a request with `product_id` present and a numeric
`quantity ≤ 0`, `createOrder` fails with status 400 before any storage
access (the state is returned unchanged and no lookup happens); the message
is "Quantity must be greater than 0" when the quantity is negative, while
the quantity 0 is caught by the presence check and yields "Product ID and
quantity are required". -/
theorem createOrder_nonpos_quantity (db : DB) (now : Nat) (pid : ReqVal) (q : ℚ)
    (hpid : jsFalsy pid = false) (hq : q ≤ 0) :
    createOrder db now pid (.num q) =
      (.err 400 (if q = 0 then "Product ID and quantity are required"
                 else "Quantity must be greater than 0"), db) := by
  by_cases h0 : q = 0
  · simp [createOrder, h0]
  · simp [createOrder, hpid, h0, hq]

/-- Witness for `createOrder_nonpos_quantity` at quantity `-1`. -/
theorem createOrder_nonpos_quantity_witness :
    createOrder dbWidget 7 (.num 1) (.num (-1)) =
      (.err 400 "Quantity must be greater than 0", dbWidget) := by
  have h := createOrder_nonpos_quantity dbWidget 7 (.num 1) (-1) (by decide) (by decide)
  simpa using h

/-- Helper: in the order–product join, the row `find?` locates for an order
id is exactly the unique order carrying that id paired with its product, and
is absent when the product is absent.  Uniqueness of `order_id` (primary
key) is the `Nodup` hypothesis. -/
theorem find_joined (ps : List Product) (l : List Order) (o : Order)
    (ho : o ∈ l) (hnd : (l.map (fun r => r.order_id)).Nodup) :
    (l.filterMap (fun r =>
        (ps.find? (fun p => p.id == r.product_id)).map (fun p => (r, p)))).find?
      (fun op => op.1.order_id == o.order_id)
    = (ps.find? (fun p => p.id == o.product_id)).map (fun p => (o, p)) := by
  induction l with
  | nil => cases ho
  | cons a l ih =>
    rw [List.map_cons, List.nodup_cons] at hnd
    obtain ⟨ha, hnd'⟩ := hnd
    rcases List.mem_cons.mp ho with rfl | hmem
    · cases hfp : ps.find? (fun p => p.id == o.product_id) with
      | some p => simp [List.filterMap_cons, hfp]
      | none =>
        simp only [List.filterMap_cons, hfp, Option.map_none']
        rw [List.find?_eq_none]
        intro x hx
        obtain ⟨r, hr, hfr⟩ := List.mem_filterMap.mp hx
        obtain ⟨pr, hpr, hxr⟩ := Option.map_eq_some'.mp hfr
        have hne : r.order_id ≠ o.order_id := by
          intro h
          exact ha (h ▸ List.mem_map_of_mem (fun s => s.order_id) hr)
        simp [← hxr, hne]
    · have hne : a.order_id ≠ o.order_id := by
        intro h
        exact ha (h ▸ List.mem_map_of_mem (fun s => s.order_id) hmem)
      cases hfp : ps.find? (fun p => p.id == a.product_id) with
      | some p =>
        simp only [List.filterMap_cons, hfp, Option.map_some', List.find?_cons]
        have : ((a, p).1.order_id == o.order_id) = false := by
          simp [hne]
        rw [this]
        exact ih hmem hnd'
      | none =>
        simp only [List.filterMap_cons, hfp, Option.map_none']
        exact ih hmem hnd'

/-- Helper: `getOrderJoined` phrased through `find_joined`. -/
theorem getOrderJoined_eq (db : DB) (o : Order)
    (ho : o ∈ db.orders) (hnd : (db.orders.map (fun r => r.order_id)).Nodup) :
    getOrderJoined db o.order_id
      = (findProduct db o.product_id).map (fun p => (o, p)) :=
  find_joined db.products db.orders o ho hnd

/-- Claim C10: when an order row exists but its product has been deleted,
`getOrder` and `updateOrder` both fail with 404 "Order not found" (the
lookup is an inner join with Products), and `updateOrder` leaves the state
unchanged; so this NotFound outcome does not imply the order id is absent
from the ledger (the order is a member of the hypothesis state). -/
theorem dangling_order_not_found (db : DB) (o : Order) (q : ℚ)
    (ho : o ∈ db.orders)
    (hnd : (db.orders.map (fun r => r.order_id)).Nodup)
    (hp : findProduct db o.product_id = none)
    (hq : 0 < q) :
    getOrder db o.order_id = .err 404 "Order not found" ∧
    updateOrder db o.order_id (.num q) = (.err 404 "Order not found", db) := by
  have hj : getOrderJoined db o.order_id = none := by
    rw [getOrderJoined_eq db o ho hnd, hp]; rfl
  have h0 : ¬ q = 0 := ne_of_gt hq
  exact ⟨by simp [getOrder, hj], by simp [updateOrder, hj, h0, hq.not_le]⟩

/-- Witness for `dangling_order_not_found` on a single dangling order. -/
theorem dangling_order_not_found_witness :
    getOrder dbDangling 1 = .err 404 "Order not found" ∧
    updateOrder dbDangling 1 (.num 3) = (.err 404 "Order not found", dbDangling) := by
  have h := dangling_order_not_found dbDangling
    { order_id := 1, product_id := 1, quantity := 2, total_price := 20, order_date := 5 }
    3 (by decide) (by decide) (by decide) (by decide)
  simpa using h

/-- Claim C2, counterexample: for a product priced `333/1000` and quantity 1,
the success response of `createOrder` carries `total_price = 33/100`
(the handler applies `parseFloat(total.toFixed(2))`), which differs from the
full-precision product `333/1000 × 1`; so create/update responses do force
rounding to 2 decimal places. -/
theorem createOrder_response_is_rounded :
    respTotal (createOrder dbThirds 0 (.num 1) (.num 1)).1 = some (33/100) ∧
    (33/100 : ℚ) ≠ 333/1000 * 1 := by
  constructor
  · simp [createOrder, dbThirds, findProductV, respTotal, round2]
    norm_num [round_eq]
  · norm_num

/-- Helper: the order update written by `PUT /orders/:id` preserves
`order_id`, so the list of order ids (and its `Nodup`) is unchanged. -/
theorem map_update_order_id (l : List Order) (oid : Nat) (q t : ℚ) :
    (l.map (fun r =>
        if r.order_id = oid then { r with quantity := q, total_price := t }
        else r)).map (fun r => r.order_id)
      = l.map (fun r => r.order_id) := by
  rw [List.map_map]
  apply List.map_congr_left
  intro r _
  by_cases h : r.order_id = oid <;> simp [h]

/-- Claim C1: for an existing order whose product exists, updating to a
positive quantity `q` stores `quantity = q` and
`total_price = current price × q` at full precision, leaves `product_id`,
`order_id` and `order_date` unchanged, and a subsequent `getOrder` shows
exactly these stored values. -/
theorem updateOrder_then_getOrder (db : DB) (o : Order) (p : Product) (q : ℚ)
    (ho : o ∈ db.orders)
    (hnd : (db.orders.map (fun r => r.order_id)).Nodup)
    (hp : findProduct db o.product_id = some p)
    (hq : 0 < q) :
    getOrder (updateOrder db o.order_id (.num q)).2 o.order_id =
      .ok 200 { order_id := o.order_id, product_id := o.product_id,
                product_name := p.name, unit_price := p.price,
                quantity := q, total_price := p.price * q,
                order_date := o.order_date } := by
  have h0 : ¬ q = 0 := ne_of_gt hq
  have hj : getOrderJoined db o.order_id = some (o, p) := by
    rw [getOrderJoined_eq db o ho hnd, hp]; rfl
  have hdb2 : (updateOrder db o.order_id (.num q)).2 =
      { db with orders := db.orders.map (fun r =>
          if r.order_id = o.order_id then
            { r with quantity := q, total_price := p.price * q } else r) } := by
    simp [updateOrder, hj, h0, hq.not_le]
  rw [hdb2]
  have hj2 : getOrderJoined
      { db with orders := db.orders.map (fun r =>
          if r.order_id = o.order_id then
            { r with quantity := q, total_price := p.price * q } else r) }
      o.order_id
      = some ({ o with quantity := q, total_price := p.price * q }, p) := by
    have hmem : ({ o with quantity := q, total_price := p.price * q } : Order) ∈
        db.orders.map (fun (r : Order) =>
          if r.order_id = o.order_id then
            { r with quantity := q, total_price := p.price * q } else r) := by
      have h := List.mem_map_of_mem (fun (r : Order) =>
        if r.order_id = o.order_id then
          { r with quantity := q, total_price := p.price * q } else r) ho
      simpa using h
    have hnd2 : (((db.orders.map (fun (r : Order) =>
        if r.order_id = o.order_id then
          { r with quantity := q, total_price := p.price * q } else r))).map
        (fun (r : Order) => r.order_id)).Nodup := by
      rw [map_update_order_id]
      exact hnd
    have hp2 : findProduct
        { db with orders := db.orders.map (fun r =>
            if r.order_id = o.order_id then
              { r with quantity := q, total_price := p.price * q } else r) }
        o.product_id = some p := hp
    have h := getOrderJoined_eq
      { db with orders := db.orders.map (fun r =>
          if r.order_id = o.order_id then
            { r with quantity := q, total_price := p.price * q } else r) }
      { o with quantity := q, total_price := p.price * q }
      hmem hnd2
    simpa [hp2] using h
  unfold getOrder
  rw [hj2]

/-- Witness for `updateOrder_then_getOrder`: the single order of `dbOrder1`
updated to quantity 3. -/
theorem updateOrder_then_getOrder_witness :
    getOrder (updateOrder dbOrder1 1 (.num 3)).2 1 =
      .ok 200 { order_id := 1, product_id := 1, product_name := "Widget",
                unit_price := 10, quantity := 3, total_price := 10 * 3,
                order_date := 0 } := by
  have h := updateOrder_then_getOrder dbOrder1
    { order_id := 1, product_id := 1, quantity := 2, total_price := 20, order_date := 0 }
    { id := 1, name := "Widget", price := 10, created_at := 0 }
    3 (by decide) (by decide) (by decide) (by decide)
  simpa using h

/-- Claim C2, amended: for successful `createOrder` and `updateOrder`, the
order row is stored with `total_price = price × quantity` at the full
precision of the multiplication, but the `total_price` echoed in the
success response is rounded to 2 decimal places
(`parseFloat(total.toFixed(2))`), exactly as the monetary fields of report
responses are. -/
theorem order_totals_rounded_in_response (db : DB) (now : Nat) (pid qv : ReqVal)
    (q : ℚ) (p : Product) (o : Order) (p2 : Product)
    (hpid : jsFalsy pid = false) (hqf : jsFalsy qv = false)
    (hqn : toNumber qv = some q) (hq : 0 < q)
    (hfind : findProductV db pid = some p)
    (ho : o ∈ db.orders)
    (hnd : (db.orders.map (fun r => r.order_id)).Nodup)
    (hp2 : findProduct db o.product_id = some p2) :
    ((createOrder db now pid qv).1 =
      .ok 201 { order_id := db.nextOrderId, product_id := pid,
                product_name := p.name, quantity := qv,
                total_price := round2 (p.price * q), order_date := now } ∧
     ∃ r ∈ (createOrder db now pid qv).2.orders,
        r.quantity = q ∧ r.total_price = p.price * q) ∧
    ((updateOrder db o.order_id qv).1 =
      .ok 200 { order_id := o.order_id, product_id := o.product_id,
                quantity := q, total_price := round2 (p2.price * q) } ∧
     ∃ r ∈ (updateOrder db o.order_id qv).2.orders,
        r.order_id = o.order_id ∧ r.quantity = q ∧ r.total_price = p2.price * q) := by
  have hnan : jsIsNaN qv = false := by simp [jsIsNaN, hqn]
  have hnp : jsNonPos qv = false := by simp [jsNonPos, hqn, hq.not_le]
  have hnum : numVal qv = q := by simp [numVal, hqn]
  have hco : createOrder db now pid qv =
      (.ok 201 { order_id := db.nextOrderId, product_id := pid,
                 product_name := p.name, quantity := qv,
                 total_price := round2 (p.price * q), order_date := now },
       { db with orders := db.orders ++
                   [{ order_id := db.nextOrderId, product_id := p.id, quantity := q,
                      total_price := p.price * q, order_date := now }],
                 nextOrderId := db.nextOrderId + 1 }) := by
    simp [createOrder, hpid, hqf, hnan, hnp, hfind, hnum]
  have hj : getOrderJoined db o.order_id = some (o, p2) := by
    rw [getOrderJoined_eq db o ho hnd, hp2]; rfl
  have huo : updateOrder db o.order_id qv =
      (.ok 200 { order_id := o.order_id, product_id := o.product_id,
                 quantity := q, total_price := round2 (p2.price * q) },
       { db with orders := db.orders.map (fun r =>
          if r.order_id = o.order_id then
            { r with quantity := q, total_price := p2.price * q } else r) }) := by
    have hqf' : ¬ jsFalsy qv = true := by simp [hqf]
    simp [updateOrder, hqf', hnan, hnp, hj, hnum]
  refine ⟨⟨?_, ?_⟩, ?_, ?_⟩
  · rw [hco]
  · rw [hco]
    exact ⟨_, List.mem_append_right _ (List.mem_singleton.mpr rfl), rfl, rfl⟩
  · rw [huo]
  · rw [huo]
    refine ⟨{ o with quantity := q, total_price := p2.price * q }, ?_, rfl, rfl, rfl⟩
    have h := List.mem_map_of_mem (fun (r : Order) =>
      if r.order_id = o.order_id then
        { r with quantity := q, total_price := p2.price * q } else r) ho
    simpa using h

/-- Witness for `order_totals_rounded_in_response` on `dbOrder1`. -/
theorem order_totals_rounded_in_response_witness :
    ((createOrder dbOrder1 9 (.num 1) (.num 3)).1 =
      .ok 201 { order_id := dbOrder1.nextOrderId, product_id := .num 1,
                product_name := "Widget", quantity := .num 3,
                total_price := round2 (10 * 3), order_date := 9 } ∧
     ∃ r ∈ (createOrder dbOrder1 9 (.num 1) (.num 3)).2.orders,
        r.quantity = 3 ∧ r.total_price = 10 * 3) ∧
    ((updateOrder dbOrder1 1 (.num 3)).1 =
      .ok 200 { order_id := 1, product_id := 1,
                quantity := 3, total_price := round2 (10 * 3) } ∧
     ∃ r ∈ (updateOrder dbOrder1 1 (.num 3)).2.orders,
        r.order_id = 1 ∧ r.quantity = 3 ∧ r.total_price = 10 * 3) := by
  have h := order_totals_rounded_in_response dbOrder1 9 (.num 1) (.num 3) 3
    { id := 1, name := "Widget", price := 10, created_at := 0 }
    { order_id := 1, product_id := 1, quantity := 2, total_price := 20, order_date := 0 }
    { id := 1, name := "Widget", price := 10, created_at := 0 }
    (by decide) (by decide) rfl (by decide) (by decide) (by decide) (by decide) (by decide)
  simpa using h

/-- Claim C7: whenever the name is empty/missing or the price is missing,
non-numeric, or ≤ 0, `createProduct` fails with a 400 validation error and
persists nothing: the state is returned unchanged. -/
theorem createProduct_invalid (db : DB) (now : Nat) (name price : ReqVal)
    (h : badCreateInput name price) :
    (∃ m, (createProduct db now name price).1 = .err 400 m) ∧
    (createProduct db now name price).2 = db := by
  by_cases h1 : (jsFalsy name || jsFalsy price) = true
  · exact ⟨⟨"Name and price are required", by simp [createProduct, h1]⟩,
      by simp [createProduct, h1]⟩
  · by_cases h2 : (jsIsNaN price || jsNonPos price) = true
    · exact ⟨⟨"Price must be a positive number", by simp [createProduct, h1, h2]⟩,
        by simp [createProduct, h1, h2]⟩
    · exfalso
      rw [Bool.or_eq_true, not_or] at h1 h2
      obtain ⟨hn, hpf⟩ := h1
      obtain ⟨hnan, hnp⟩ := h2
      rcases h with h | h | h | ⟨q, hq1, hq2⟩
      · exact hn h
      · subst h
        exact hpf rfl
      · exact hnan h
      · exact hnp (by simp [jsNonPos, hq1, hq2])

/-- Witness for `createProduct_invalid` at the non-positive price 0. -/
theorem createProduct_invalid_witness :
    (∃ m, (createProduct dbWidget 4 (.str "Lamp" none) (.num 0)).1 = .err 400 m) ∧
    (createProduct dbWidget 4 (.str "Lamp" none) (.num 0)).2 = dbWidget :=
  createProduct_invalid dbWidget 4 (.str "Lamp" none) (.num 0)
    (Or.inr (Or.inr (Or.inr ⟨0, rfl, le_refl 0⟩)))

/-- Claim C8: for an existing product and a valid `(name, price)` input,
`updateProduct` succeeds and changes only the `name` and `price` of the
matching row: its `id` and `created_at` are unchanged, every row with a
different id is untouched, no row is added or removed, and the Orders
table is untouched. -/
theorem updateProduct_frame (db : DB) (id : Nat) (name price : ReqVal) (q : ℚ)
    (hn : jsFalsy name = false) (hpf : jsFalsy price = false)
    (hqn : toNumber price = some q) (hq : 0 < q)
    (hex : ∃ p ∈ db.products, p.id = id) :
    (updateProduct db id name price).1 =
      .ok 200 { id := id, name := strVal name, price := q } ∧
    (updateProduct db id name price).2.orders = db.orders ∧
    (updateProduct db id name price).2.products.length = db.products.length ∧
    ∀ i (h1 : i < db.products.length)
      (h2 : i < (updateProduct db id name price).2.products.length),
      ((updateProduct db id name price).2.products.get ⟨i, h2⟩).id
          = (db.products.get ⟨i, h1⟩).id ∧
      ((updateProduct db id name price).2.products.get ⟨i, h2⟩).created_at
          = (db.products.get ⟨i, h1⟩).created_at ∧
      ((db.products.get ⟨i, h1⟩).id ≠ id →
        (updateProduct db id name price).2.products.get ⟨i, h2⟩
          = db.products.get ⟨i, h1⟩) ∧
      ((db.products.get ⟨i, h1⟩).id = id →
        ((updateProduct db id name price).2.products.get ⟨i, h2⟩).name = strVal name ∧
        ((updateProduct db id name price).2.products.get ⟨i, h2⟩).price = q) := by
  have hnan : jsIsNaN price = false := by simp [jsIsNaN, hqn]
  have hnp : jsNonPos price = false := by simp [jsNonPos, hqn, hq.not_le]
  have hany : db.products.any (fun p => p.id == id) = true := by
    obtain ⟨p, hp, hpid⟩ := hex
    exact List.any_eq_true.mpr ⟨p, hp, by simp [hpid]⟩
  have hupd : updateProduct db id name price =
      (.ok 200 { id := id, name := strVal name, price := q },
       { db with products := db.products.map (fun p =>
          if p.id = id then { p with name := strVal name, price := q } else p) }) := by
    simp [updateProduct, hn, hpf, hnan, hnp, hany, numVal, hqn]
  rw [hupd]
  refine ⟨rfl, rfl, by simp, ?_⟩
  intro i h1 h2
  by_cases hcase : (db.products.get ⟨i, h1⟩).id = id <;>
    simp [List.get_eq_getElem, List.getElem_map, hcase] at h2 ⊢ <;>
    simp [List.get_eq_getElem] at hcase <;>
    simp [hcase]

/-- Witness for `updateProduct_frame` on the single product of `dbOrder1`. -/
theorem updateProduct_frame_witness :
    (updateProduct dbOrder1 1 (.str "Gizmo" none) (.num 5)).1 =
      .ok 200 { id := 1, name := strVal (.str "Gizmo" none), price := 5 } ∧
    (updateProduct dbOrder1 1 (.str "Gizmo" none) (.num 5)).2.orders = dbOrder1.orders ∧
    (updateProduct dbOrder1 1 (.str "Gizmo" none) (.num 5)).2.products.length
        = dbOrder1.products.length ∧
    ∀ i (h1 : i < dbOrder1.products.length)
      (h2 : i < (updateProduct dbOrder1 1 (.str "Gizmo" none) (.num 5)).2.products.length),
      (((updateProduct dbOrder1 1 (.str "Gizmo" none) (.num 5)).2.products.get ⟨i, h2⟩).id
          = (dbOrder1.products.get ⟨i, h1⟩).id) ∧
      (((updateProduct dbOrder1 1 (.str "Gizmo" none) (.num 5)).2.products.get ⟨i, h2⟩).created_at
          = (dbOrder1.products.get ⟨i, h1⟩).created_at) ∧
      ((dbOrder1.products.get ⟨i, h1⟩).id ≠ 1 →
        (updateProduct dbOrder1 1 (.str "Gizmo" none) (.num 5)).2.products.get ⟨i, h2⟩
          = dbOrder1.products.get ⟨i, h1⟩) ∧
      ((dbOrder1.products.get ⟨i, h1⟩).id = 1 →
        (((updateProduct dbOrder1 1 (.str "Gizmo" none) (.num 5)).2.products.get ⟨i, h2⟩).name
            = strVal (.str "Gizmo" none)) ∧
        ((updateProduct dbOrder1 1 (.str "Gizmo" none) (.num 5)).2.products.get ⟨i, h2⟩).price = 5) :=
  updateProduct_frame dbOrder1 1 (.str "Gizmo" none) (.num 5) 5
    (by decide) (by decide) rfl (by decide)
    ⟨{ id := 1, name := "Widget", price := 10, created_at := 0 }, by decide, rfl⟩

/-- Claim C4: for every state, `topSellers` returns at most 5 rows, every
returned row comes from a product with strictly positive total quantity
sold (so no product whose total quantity sold is zero ever appears), and
the result is sorted non-increasing by `total_quantity_sold`. -/
theorem topSellers_spec (db : DB) :
    (topSellers db).length ≤ 5 ∧
    (∀ r ∈ topSellers db, ∃ p ∈ db.products,
        r = mkTopSellerRow db p ∧ 0 < totalQty db p.id) ∧
    (∀ p ∈ db.products, totalQty db p.id = 0 →
        ∀ r ∈ topSellers db, r.id ≠ p.id) ∧
    List.Sorted tsGe (topSellers db) := by
  have hmem : ∀ r ∈ topSellers db, ∃ p ∈ db.products,
      r = mkTopSellerRow db p ∧ 0 < totalQty db p.id := by
    intro r hr
    have hr1 : r ∈ ((db.products.map (mkTopSellerRow db)).filter
        (fun s => decide (0 < s.total_quantity_sold))).insertionSort tsGe :=
      List.take_subset 5 _ hr
    rw [List.mem_insertionSort] at hr1
    obtain ⟨hr2, hr3⟩ := List.mem_filter.mp hr1
    obtain ⟨p, hp, rfl⟩ := List.mem_map.mp hr2
    refine ⟨p, hp, rfl, ?_⟩
    simpa [mkTopSellerRow] using of_decide_eq_true hr3
  refine ⟨?_, hmem, ?_, ?_⟩
  · exact List.length_take_le 5 _
  · intro p hp h0 r hr
    obtain ⟨p2, hp2, rfl, hpos⟩ := hmem r hr
    intro hid
    have hid2 : p2.id = p.id := by simpa [mkTopSellerRow] using hid
    rw [hid2, h0] at hpos
    exact lt_irrefl 0 hpos
  · have hs := List.sorted_insertionSort tsGe
      ((db.products.map (mkTopSellerRow db)).filter
        (fun s => decide (0 < s.total_quantity_sold)))
    exact List.Pairwise.sublist (List.take_sublist 5 _) hs

/-- Claim C6: `productPerformance` returns one row per product (a
permutation of the per-product aggregation, so no limit), includes
zero-sales products with zero-valued `total_sold`, `order_count` and
`revenue`, and is sorted by `total_sold` descending. -/
theorem productPerformance_spec (db : DB) :
    List.Perm (productPerformance db) (db.products.map (mkPerfRow db)) ∧
    List.Sorted perfGe (productPerformance db) ∧
    ∀ p ∈ db.products, ordersOf db p.id = [] →
      ({ id := p.id, name := p.name, price := round2 p.price,
         total_sold := 0, order_count := 0, revenue := 0 } : PerfRow) ∈
        productPerformance db := by
  refine ⟨List.perm_insertionSort perfGe _, List.sorted_insertionSort perfGe _, ?_⟩
  intro p hp h0
  simp only [productPerformance, List.mem_insertionSort]
  apply List.mem_map.mpr
  refine ⟨p, hp, ?_⟩
  simp [mkPerfRow, totalQty, revenueOf, h0, round2]

/-- Claim C9: `listOrders` returns exactly the order rows whose product
currently exists (inner-join semantics: an order whose product was deleted
is omitted), each joined with the product's current name, and the result is
sorted by `order_id` descending. -/
theorem listOrders_spec (db : DB) :
    (∀ r, r ∈ listOrders db ↔
      ∃ o ∈ db.orders, ∃ p, findProduct db o.product_id = some p ∧
        r = mkListRow o p) ∧
    List.Sorted rowGe (listOrders db) := by
  constructor
  · intro r
    simp only [listOrders, List.mem_insertionSort, List.mem_map]
    constructor
    · rintro ⟨op, hop, rfl⟩
      obtain ⟨o2, ho2, hfo⟩ := List.mem_filterMap.mp hop
      obtain ⟨p2, hp2, heq⟩ := Option.map_eq_some'.mp hfo
      subst heq
      exact ⟨o2, ho2, p2, hp2, rfl⟩
    · rintro ⟨o, ho, p, hp, rfl⟩
      refine ⟨(o, p), ?_, rfl⟩
      exact List.mem_filterMap.mpr ⟨o, ho, by rw [hp]; rfl⟩
  · exact List.sorted_insertionSort rowGe _

end ECom
